import Mathlib

/-!
Shallow embedding of the telemetry simulator in
`src/mongodb_data_generator.py` (functions `calculate_machine_parameters`
and `generate_batch_sensor_data`).

Modelling choices:
* Python floats are modelled as rationals (`ℚ`); all arithmetic in the
  simulation is exact in this model.
* Python exceptions are modelled by `Except PyError`; the dictionary
  lookups that can raise `KeyError`, the `np.linspace` call that can raise
  `ValueError` for a negative sample count, and the `tool_wear[-1]` access
  that can raise `IndexError` on an empty array are the failure points of
  the simulation body.
* The process-wide random generator (`random.randint`, `np.random.normal`)
  is modelled by an explicit `RandomDraws` record supplying the drawn
  values: one `randint` result per material for the base-RPM dictionary and
  one noise stream per noise array, indexed by sample position.
* The MongoDB client, the job-record insert, the batched `insert_many` and
  the final `update_one` are external effects; they are abstracted as a
  single optional failure (`dbFailure`) injected into the wrapped body.
  The numeric simulation itself (lines 100-165 of the source) is embedded
  faithfully.
-/

namespace LatheSim

/-- Python exception values that the simulation body can raise. -/
inductive PyError where
  | keyError (key : String)
  | valueError (msg : String)
  | indexError (msg : String)
deriving Repr, DecidableEq

/-- `str(e)` for the exceptions above: `str(KeyError(k))` renders the key
repr-quoted, the others render their message. -/
def PyError.toStr : PyError → String
  | .keyError k => "'" ++ k ++ "'"
  | .valueError m => m
  | .indexError m => m

/-- One entry of `MATERIAL_PROFILES`. -/
structure MaterialProfile where
  hardness : ℚ
  thermal_conductivity : ℚ
  specific_heat : ℚ
deriving Repr, DecidableEq

/-- Material properties database (source lines 9-13). -/
def MATERIAL_PROFILES : List (String × MaterialProfile) :=
  [("Mild Steel", ⟨120, 50, 460⟩),
   ("Aluminum", ⟨35, 237, 900⟩),
   ("Wood", ⟨2, 12/100, 1700⟩)]

/-- `TOOL_WEAR_RATES` (source lines 15-19). -/
def TOOL_WEAR_RATES : List (String × ℚ) :=
  [("Mild Steel", 15/100), ("Aluminum", 8/100), ("Wood", 2/100)]

/-- `JOB_TYPES` (source line 21). -/
def JOB_TYPES : List String :=
  ["turning", "facing", "threading", "drilling", "boring", "knurling"]

/-- The job-type → base-power dictionary literal inside
`calculate_machine_parameters` (source lines 31-38). -/
def BASE_POWER_FACTORS : List (String × ℚ) :=
  [("turning", 35/10), ("facing", 4), ("threading", 28/10),
   ("drilling", 5), ("boring", 3), ("knurling", 25/10)]

/-- The material → vibration-base dictionary literal inside
`generate_batch_sensor_data` (source lines 136-140). -/
def VIBRATION_BASE : List (String × ℚ) :=
  [("Mild Steel", 25/10), ("Aluminum", 18/10), ("Wood", 8/10)]

/-- Python `dict[key]`: returns the value or raises `KeyError(key)`. -/
def dictGet {α : Type} (d : List (String × α)) (k : String) : Except PyError α :=
  match d.lookup k with
  | some v => .ok v
  | none => .error (.keyError k)

/-- The values supplied by the random source during one run: the three
`random.randint` draws made while building the base-RPM dictionary
(source lines 25-29) and the five per-point `np.random.normal` noise
streams (source lines 113, 117, 123, 133, 142), indexed by sample
position. -/
structure RandomDraws where
  rpmMild : ℚ
  rpmAlu : ℚ
  rpmWood : ℚ
  wearNoise : ℕ → ℚ
  rpmNoise : ℕ → ℚ
  powerNoise : ℕ → ℚ
  tempNoise : ℕ → ℚ
  vibNoise : ℕ → ℚ

/-- The base-RPM dictionary literal inside `calculate_machine_parameters`
(source lines 25-29): all three randint draws are made before the lookup
happens, so the dictionary always carries all three drawn values. -/
def baseRpmDict (draws : RandomDraws) : List (String × ℚ) :=
  [("Mild Steel", draws.rpmMild), ("Aluminum", draws.rpmAlu), ("Wood", draws.rpmWood)]

/-- `calculate_machine_parameters` (source lines 23-40): the base-RPM
dictionary is built from the three randint draws and indexed by material,
the base power comes from the job-type dictionary scaled by
`tool_diameter/10`.  Either lookup can raise `KeyError`. -/
def calculate_machine_parameters (draws : RandomDraws) (material job_type : String)
    (tool_diameter : ℚ) : Except PyError (ℚ × ℚ) := do
  let base_rpm ← dictGet (baseRpmDict draws) material
  let factor ← dictGet BASE_POWER_FACTORS job_type
  .ok (base_rpm, factor * (tool_diameter / 10))

/-- Python `int(q)`: truncation toward zero. -/
def pyInt (q : ℚ) : ℤ := if 0 ≤ q then ⌊q⌋ else ⌈q⌉

/-- The `i`-th evenly spaced value of `np.linspace(start, stop, num)`:
`start + (stop-start)*i/(num-1)` (exact in ℚ; for `num = 1` the single
value is `start`, matching the convention that division by zero yields
zero). -/
def linTerm (start stop : ℚ) (num : ℤ) (i : ℕ) : ℚ :=
  start + (stop - start) * (i : ℚ) / ((num : ℚ) - 1)

/-- `np.linspace(start, stop, num)` with `endpoint=True`: raises
`ValueError` for a negative count, otherwise returns the `num` evenly
spaced values from `start` to `stop` inclusive. -/
def linspace (start stop : ℚ) (num : ℤ) : Except PyError (List ℚ) :=
  if num < 0 then .error (.valueError "Number of samples must be non-negative")
  else .ok ((List.range num.toNat).map (linTerm start stop num))

/-- One produced sensor reading: the numeric fields of one document of
source lines 151-165 together with its elapsed time in minutes. -/
structure SensorSample where
  elapsedMinutes : ℚ
  toolWearPct : ℚ
  rpm : ℚ
  powerKw : ℚ
  temperatureC : ℚ
  vibration : ℚ
deriving Repr, DecidableEq

/-- Tool wear at elapsed time `t` (source lines 111-114):
`min(100, rate * t * noise)`. -/
def wearAt (rate t noise : ℚ) : ℚ := min 100 (rate * t * noise)

/-- RPM at a given wear level (source lines 117-119):
`max(100, base_rpm * (1 - wear/500) * (1 + noise))`. -/
def rpmAt (base_rpm wear noise : ℚ) : ℚ :=
  max 100 (base_rpm * (1 - wear / 500) * (1 + noise))

/-- The reading at sample index `i`, elapsed time `t` minutes: pointwise
transcription of the vectorised formulas of source lines 110-143.
`cooling_efficiency = 0.7` and `ambient_temp = 25` (source lines 103-104);
`np.clip(x, 25, 300)` is `min 300 (max 25 x)`. -/
def sampleAt (base_rpm base_power wear_rate : ℚ) (props : MaterialProfile)
    (vibration_base : ℚ) (draws : RandomDraws) (i : ℕ) (t : ℚ) : SensorSample :=
  let tool_wear := wearAt wear_rate t (draws.wearNoise i)
  let current_rpm := rpmAt base_rpm tool_wear (draws.rpmNoise i)
  let current_power :=
    max (5/10) (base_power * (1 + tool_wear / 100 * (5/10)) * (1 + draws.powerNoise i))
  let heat_generation := current_power * 1000 * (8/10)
  let temp_increase := heat_generation * t * 60 / (props.specific_heat * props.hardness)
  let workpiece_temp :=
    min 300 (max 25 (25 + temp_increase * (1 - 7/10) + draws.tempNoise i))
  let vib :=
    max 0 (vibration_base * (current_rpm / 1000) * (1 + tool_wear / 50)
      * (1 + draws.vibNoise i))
  { elapsedMinutes := t, toolWearPct := tool_wear, rpm := current_rpm,
    powerKw := current_power, temperatureC := workpiece_temp, vibration := vib }

/-- The simulation proper (source lines 100-165): derive base parameters,
build the time vector with `n_points = int(duration*60/5)` samples, and
produce one `SensorSample` per time point.  The vectorised noise arrays
of the source become per-index draws; all failure points (`KeyError` on
the dictionaries, `ValueError` from `linspace`) are preserved in order. -/
def simulateSamples (draws : RandomDraws) (duration : ℚ) (material job_type : String)
    (tool_no : ℤ) : Except PyError (List SensorSample) := do
  let tool_diameter : ℚ := 10 + (tool_no : ℚ) * 2
  let p ← calculate_machine_parameters draws material job_type tool_diameter
  let n_points := pyInt (duration * 60 / 5)
  let elapsed_minutes ← linspace 0 duration n_points
  let wear_rate ← dictGet TOOL_WEAR_RATES material
  let props ← dictGet MATERIAL_PROFILES material
  let vibration_base ← dictGet VIBRATION_BASE material
  .ok (((List.range elapsed_minutes.length).zip elapsed_minutes).map
    (fun q => sampleAt p.1 p.2 wear_rate props vibration_base draws q.1 q.2))

/-- The simulation body including the `tool_wear[-1]` access of the final
job-status update (source line 183), which raises `IndexError` when the
run produced no samples.  Returns the samples and the final wear value. -/
def simulateRun (draws : RandomDraws) (duration : ℚ) (material job_type : String)
    (tool_no : ℤ) : Except PyError (List SensorSample × ℚ) := do
  let samples ← simulateSamples draws duration material job_type tool_no
  match samples.getLast? with
  | some s => .ok (samples, s.toolWearPct)
  | none => .error (.indexError "index -1 is out of bounds for axis 0 with size 0")

/-- The success return value of `generate_batch_sensor_data`
(source line 188). -/
def successMessage (count : ℕ) (job_id lathe_id : String) : String :=
  "Successfully generated " ++ toString count ++ " data points for Job "
    ++ job_id ++ " (Lathe " ++ lathe_id ++ ")"

/-- `generate_batch_sensor_data` (source lines 54-194): the whole body runs
under `try/except Exception`; any raised exception is converted into the
string `"Error occurred: " + str(e)`.  The MongoDB connection, the
job-record insert and the batched writes are abstracted as one optional
injected failure `dbFailure`; the simulation body is `simulateRun`. -/
def generate_batch_sensor_data (dbFailure : Option PyError) (draws : RandomDraws)
    (lathe_id job_id : String) (duration : ℚ) (material job_type : String)
    (tool_no : ℤ) : String :=
  let body : Except PyError (List SensorSample × ℚ) :=
    match dbFailure with
    | some e => .error e
    | none => simulateRun draws duration material job_type tool_no
  match body with
  | .ok r => successMessage r.1.length job_id lathe_id
  | .error e => "Error occurred: " ++ e.toStr

/-- Noise entirely disabled and base-RPM draws fixed mid-range: the
multiplicative `Normal(1, 0.05)` wear noise becomes `1`, every additive
`Normal(0, σ)` noise becomes `0`. -/
def noNoiseDraws : RandomDraws :=
  { rpmMild := 1000, rpmAlu := 2000, rpmWood := 3000,
    wearNoise := fun _ => 1, rpmNoise := fun _ => 0, powerNoise := fun _ => 0,
    tempNoise := fun _ => 0, vibNoise := fun _ => 0 }

/-- Like `noNoiseDraws` but with the per-point wear-noise draw equal to
`-1` (an admissible, if improbable, value of a `Normal(1, 0.05)` draw). -/
def negWearDraws : RandomDraws :=
  { noNoiseDraws with wearNoise := fun _ => -1 }

/-- The canonical form of one produced sample: base parameters `b`
(base RPM) and `bp` (base power), wear rate `wr`, material profile
`props`, vibration base `vb`, at index `i` of a run with `num` points. -/
def runSample (b bp wr : ℚ) (props : MaterialProfile) (vb : ℚ) (draws : RandomDraws)
    (duration : ℚ) (num : ℤ) (i : ℕ) : SensorSample :=
  sampleAt b bp wr props vb draws i (linTerm 0 duration num i)

/-- The two samples of the ten-second noise-free reference run
(`duration = 1/6` minute, Mild Steel, turning, tool 1): `n_points = 2`,
base RPM 1000, base power `3.5 * 12/10`. -/
def twoPointSamples : List SensorSample :=
  [{ elapsedMinutes := 0, toolWearPct := 0, rpm := 1000, powerKw := 21/5,
     temperatureC := 25, vibration := 5/2 },
   { elapsedMinutes := 1/6, toolWearPct := 1/40, rpm := 19999/20,
     powerKw := 168021/40000, temperatureC := 23168021/920000,
     vibration := 40017999/16000000 }]

/-- The first sample of the noise-free reference run. -/
def firstSample : SensorSample :=
  { elapsedMinutes := 0, toolWearPct := 0, rpm := 1000, powerKw := 21/5,
    temperatureC := 25, vibration := 5/2 }

/-- The two samples of the same reference run when the per-point wear
noise is `-1`: the second tool-wear value is negative. -/
def negTwoPointSamples : List SensorSample :=
  [{ elapsedMinutes := 0, toolWearPct := 0, rpm := 1000, powerKw := 21/5,
     temperatureC := 25, vibration := 5/2 },
   { elapsedMinutes := 1/6, toolWearPct := -(1/40), rpm := 20001/20,
     powerKw := 167979/40000, temperatureC := 23167979/920000,
     vibration := 39981999/16000000 }]

theorem calculate_machine_parameters_ok (draws : RandomDraws) (material job_type : String)
    (tool_diameter b f : ℚ)
    (hb : dictGet (baseRpmDict draws) material = .ok b)
    (hf : dictGet BASE_POWER_FACTORS job_type = .ok f) :
    calculate_machine_parameters draws material job_type tool_diameter
      = .ok (b, f * (tool_diameter / 10)) := by
  unfold calculate_machine_parameters
  rw [hb, hf]
  rfl

theorem calculate_machine_parameters_inv (draws : RandomDraws) (material job_type : String)
    (tool_diameter : ℚ) (p : ℚ × ℚ)
    (hok : calculate_machine_parameters draws material job_type tool_diameter = .ok p) :
    ∃ b f, dictGet (baseRpmDict draws) material = .ok b ∧
      dictGet BASE_POWER_FACTORS job_type = .ok f ∧ p = (b, f * (tool_diameter / 10)) := by
  unfold calculate_machine_parameters at hok
  cases h1 : dictGet (baseRpmDict draws) material with
  | error e => rw [h1] at hok; exact absurd hok (by simp [Bind.bind, Except.bind])
  | ok b =>
    rw [h1] at hok
    cases h2 : dictGet BASE_POWER_FACTORS job_type with
    | error e => rw [h2] at hok; exact absurd hok (by simp [Bind.bind, Except.bind])
    | ok f =>
      rw [h2] at hok
      simp only [Bind.bind, Except.bind, Except.ok.injEq] at hok
      exact ⟨b, f, rfl, rfl, hok.symm⟩

/-- A successful base-RPM lookup pins the material down to one of the
three known names. -/
theorem baseRpm_ok_material (draws : RandomDraws) (material : String) (b : ℚ)
    (hb : dictGet (baseRpmDict draws) material = .ok b) :
    material = "Mild Steel" ∨ material = "Aluminum" ∨ material = "Wood" := by
  by_cases h1 : material = "Mild Steel"
  · exact Or.inl h1
  by_cases h2 : material = "Aluminum"
  · exact Or.inr (Or.inl h2)
  by_cases h3 : material = "Wood"
  · exact Or.inr (Or.inr h3)
  have b1 : (material == "Mild Steel") = false := beq_eq_false_iff_ne.mpr h1
  have b2 : (material == "Aluminum") = false := beq_eq_false_iff_ne.mpr h2
  have b3 : (material == "Wood") = false := beq_eq_false_iff_ne.mpr h3
  simp [dictGet, baseRpmDict, List.lookup, b1, b2, b3] at hb

/-- For each known material, all per-material lookups succeed and the
wear rate is nonnegative. -/
theorem material_lookups (m : String)
    (h : m = "Mild Steel" ∨ m = "Aluminum" ∨ m = "Wood") :
    ∃ wr props vb, dictGet TOOL_WEAR_RATES m = .ok wr ∧ 0 ≤ wr ∧
      dictGet MATERIAL_PROFILES m = .ok props ∧ dictGet VIBRATION_BASE m = .ok vb := by
  rcases h with h | h | h <;> subst h
  · exact ⟨15/100, ⟨120, 50, 460⟩, 25/10, rfl, by norm_num, rfl, rfl⟩
  · exact ⟨8/100, ⟨35, 237, 900⟩, 18/10, rfl, by norm_num, rfl, rfl⟩
  · exact ⟨2/100, ⟨2, 12/100, 1700⟩, 8/10, rfl, by norm_num, rfl, rfl⟩

/-- For each known material, the base-RPM lookup succeeds. -/
theorem material_baseRpm (draws : RandomDraws) (m : String)
    (h : m = "Mild Steel" ∨ m = "Aluminum" ∨ m = "Wood") :
    ∃ b, dictGet (baseRpmDict draws) m = .ok b := by
  rcases h with h | h | h <;> subst h
  · exact ⟨draws.rpmMild, rfl⟩
  · exact ⟨draws.rpmAlu, rfl⟩
  · exact ⟨draws.rpmWood, rfl⟩

/-- Every job type of `JOB_TYPES` has an entry in the base-power
dictionary. -/
theorem job_lookup (j : String) (h : j ∈ JOB_TYPES) :
    ∃ f, dictGet BASE_POWER_FACTORS j = .ok f := by
  simp only [JOB_TYPES, List.mem_cons, List.not_mem_nil, or_false] at h
  rcases h with h | h | h | h | h | h <;> subst h
  · exact ⟨35/10, rfl⟩
  · exact ⟨4, rfl⟩
  · exact ⟨28/10, rfl⟩
  · exact ⟨5, rfl⟩
  · exact ⟨3, rfl⟩
  · exact ⟨25/10, rfl⟩

theorem zip_range_map {α : Type} (g : ℕ → α) (k : ℕ) :
    (List.range k).zip ((List.range k).map g) = (List.range k).map (fun i => (i, g i)) := by
  apply List.ext_getElem
  · simp
  · intro i h1 h2
    simp [List.getElem_zip]

theorem simulateSamples_ok (draws : RandomDraws) (duration : ℚ)
    (material job_type : String) (tool_no : ℤ) (b f wr : ℚ) (props : MaterialProfile)
    (vb : ℚ)
    (hb : dictGet (baseRpmDict draws) material = .ok b)
    (hf : dictGet BASE_POWER_FACTORS job_type = .ok f)
    (hwr : dictGet TOOL_WEAR_RATES material = .ok wr)
    (hp : dictGet MATERIAL_PROFILES material = .ok props)
    (hvb : dictGet VIBRATION_BASE material = .ok vb)
    (hn : ¬ pyInt (duration * 60 / 5) < 0) :
    simulateSamples draws duration material job_type tool_no
      = .ok ((List.range (pyInt (duration * 60 / 5)).toNat).map
          (runSample b (f * ((10 + (tool_no : ℚ) * 2) / 10)) wr props vb draws duration
            (pyInt (duration * 60 / 5)))) := by
  unfold simulateSamples linspace
  simp only []
  rw [calculate_machine_parameters_ok draws material job_type (10 + (tool_no : ℚ) * 2) b f
    hb hf]
  simp only [hn, if_false, hwr, hp, hvb, Except.bind, Bind.bind]
  simp only [List.length_map, List.length_range, zip_range_map, List.map_map]
  rfl

/-- Inversion: a run that returns a sample list determines the canonical
shape of that list together with the success of every lookup it made. -/
theorem simulateSamples_inv (draws : RandomDraws) (duration : ℚ)
    (material job_type : String) (tool_no : ℤ) (samples : List SensorSample)
    (hok : simulateSamples draws duration material job_type tool_no = .ok samples) :
    ∃ b f wr props vb,
      dictGet (baseRpmDict draws) material = .ok b ∧
      dictGet BASE_POWER_FACTORS job_type = .ok f ∧
      dictGet TOOL_WEAR_RATES material = .ok wr ∧ 0 ≤ wr ∧
      dictGet MATERIAL_PROFILES material = .ok props ∧
      dictGet VIBRATION_BASE material = .ok vb ∧
      ¬ pyInt (duration * 60 / 5) < 0 ∧
      samples = (List.range (pyInt (duration * 60 / 5)).toNat).map
        (runSample b (f * ((10 + (tool_no : ℚ) * 2) / 10)) wr props vb draws duration
          (pyInt (duration * 60 / 5))) := by
  cases hcp : calculate_machine_parameters draws material job_type (10 + (tool_no : ℚ) * 2) with
  | error e =>
    unfold simulateSamples at hok
    simp only [] at hok
    rw [hcp] at hok
    exact absurd hok (by simp [Bind.bind, Except.bind])
  | ok p =>
    obtain ⟨b, f, hb, hf, hpeq⟩ := calculate_machine_parameters_inv _ _ _ _ _ hcp
    have hmat := baseRpm_ok_material draws material b hb
    obtain ⟨wr, props, vb, hwr, hwrpos, hpr, hvb⟩ := material_lookups material hmat
    by_cases hn : pyInt (duration * 60 / 5) < 0
    · unfold simulateSamples linspace at hok
      simp only [] at hok
      rw [hcp] at hok
      exact absurd hok (by simp [Bind.bind, Except.bind, hn])
    · rw [simulateSamples_ok draws duration material job_type tool_no b f wr props vb
        hb hf hwr hpr hvb hn] at hok
      injection hok with hok
      exact ⟨b, f, wr, props, vb, hb, hf, hwr, hwrpos, hpr, hvb, hn, hok.symm⟩

theorem pyInt_two : pyInt ((1/6 : ℚ) * 60 / 5) = 2 := by
  rw [show ((1/6 : ℚ) * 60 / 5) = 2 by norm_num]
  rw [pyInt]
  norm_num

theorem twoPointSamples_run :
    simulateSamples noNoiseDraws (1/6) "Mild Steel" "turning" 1 = .ok twoPointSamples := by
  rw [simulateSamples_ok noNoiseDraws (1/6) "Mild Steel" "turning" 1 1000 (35/10) (15/100)
    ⟨120, 50, 460⟩ (25/10) rfl rfl rfl rfl rfl (by rw [pyInt_two]; norm_num)]
  rw [pyInt_two]
  rw [show ((2 : ℤ)).toNat = 2 from rfl, show List.range 2 = [0, 1] from by decide]
  simp only [List.map_cons, List.map_nil]
  unfold twoPointSamples runSample sampleAt wearAt rpmAt linTerm noNoiseDraws
  norm_num [min_def, max_def]

theorem negTwoPointSamples_run :
    simulateSamples negWearDraws (1/6) "Mild Steel" "turning" 1 = .ok negTwoPointSamples := by
  rw [simulateSamples_ok negWearDraws (1/6) "Mild Steel" "turning" 1 1000 (35/10) (15/100)
    ⟨120, 50, 460⟩ (25/10) rfl rfl rfl rfl rfl (by rw [pyInt_two]; norm_num)]
  rw [pyInt_two]
  rw [show ((2 : ℤ)).toNat = 2 from rfl, show List.range 2 = [0, 1] from by decide]
  simp only [List.map_cons, List.map_nil]
  unfold negTwoPointSamples runSample sampleAt wearAt rpmAt linTerm negWearDraws noNoiseDraws
  norm_num [min_def, max_def]

/-- Every individual sample respects the clamps applied by the source:
`np.maximum(100, rpm)`, `np.maximum(0.5, power)`, `np.clip(temp, 25, 300)`
and `np.maximum(0, vibration)`, whatever the noise values are. -/
theorem sampleAt_clamps (b bp wr : ℚ) (props : MaterialProfile) (vb : ℚ)
    (draws : RandomDraws) (i : ℕ) (t : ℚ) :
    100 ≤ (sampleAt b bp wr props vb draws i t).rpm ∧
    5/10 ≤ (sampleAt b bp wr props vb draws i t).powerKw ∧
    25 ≤ (sampleAt b bp wr props vb draws i t).temperatureC ∧
    (sampleAt b bp wr props vb draws i t).temperatureC ≤ 300 ∧
    0 ≤ (sampleAt b bp wr props vb draws i t).vibration := by
  unfold sampleAt rpmAt
  refine ⟨le_max_left _ _, le_max_left _ _, le_min (by norm_num) (le_max_left _ _),
    min_le_left _ _, le_max_left _ _⟩

/-- A successful wear-rate lookup always yields a nonnegative rate. -/
theorem wear_rate_nonneg (m : String) (wr : ℚ)
    (h : dictGet TOOL_WEAR_RATES m = .ok wr) : 0 ≤ wr := by
  by_cases h1 : m = "Mild Steel"
  · subst h1
    rw [show dictGet TOOL_WEAR_RATES "Mild Steel" = Except.ok ((15 : ℚ)/100) from rfl] at h
    injection h with h
    rw [← h]
    norm_num
  by_cases h2 : m = "Aluminum"
  · subst h2
    rw [show dictGet TOOL_WEAR_RATES "Aluminum" = Except.ok ((8 : ℚ)/100) from rfl] at h
    injection h with h
    rw [← h]
    norm_num
  by_cases h3 : m = "Wood"
  · subst h3
    rw [show dictGet TOOL_WEAR_RATES "Wood" = Except.ok ((2 : ℚ)/100) from rfl] at h
    injection h with h
    rw [← h]
    norm_num
  have b1 : (m == "Mild Steel") = false := beq_eq_false_iff_ne.mpr h1
  have b2 : (m == "Aluminum") = false := beq_eq_false_iff_ne.mpr h2
  have b3 : (m == "Wood") = false := beq_eq_false_iff_ne.mpr h3
  simp [dictGet, TOOL_WEAR_RATES, List.lookup, b1, b2, b3] at h

theorem canonical_get (b bp wr : ℚ) (props : MaterialProfile) (vb : ℚ)
    (draws : RandomDraws) (duration : ℚ) (num : ℤ) (i : ℕ)
    (h : i < ((List.range num.toNat).map
      (runSample b bp wr props vb draws duration num)).length) :
    ((List.range num.toNat).map (runSample b bp wr props vb draws duration num)).get ⟨i, h⟩
      = runSample b bp wr props vb draws duration num i := by
  simp [List.get_eq_getElem]

/-- The time values of a run are nonnegative. -/
theorem linTerm_nonneg (duration : ℚ) (num : ℤ) (hdur : 0 ≤ duration)
    (i : ℕ) (hi : i < num.toNat) : 0 ≤ linTerm 0 duration num i := by
  rcases Nat.eq_zero_or_pos i with h0 | h1
  · subst h0
    simp [linTerm]
  · have h2 : 2 ≤ num.toNat := by omega
    have hnum : (2 : ℤ) ≤ num := by omega
    have hc : (2 : ℚ) ≤ (num : ℚ) := by exact_mod_cast hnum
    have hpos : (0 : ℚ) < (num : ℚ) - 1 := by linarith
    unfold linTerm
    rw [sub_zero, zero_add]
    exact div_nonneg (mul_nonneg hdur (Nat.cast_nonneg i)) (le_of_lt hpos)

/-- C6: for every run and every produced sample, `rpm ≥ 100`,
`powerKw ≥ 0.5`, `25 ≤ temperatureC ≤ 300` and `vibration ≥ 0`, for all
values of the per-point noise draws. -/
theorem c6_clamp_bounds (draws : RandomDraws) (duration : ℚ) (material job_type : String)
    (tool_no : ℤ) (samples : List SensorSample)
    (hok : simulateSamples draws duration material job_type tool_no = .ok samples) :
    ∀ s ∈ samples, 100 ≤ s.rpm ∧ 1/2 ≤ s.powerKw ∧ 25 ≤ s.temperatureC ∧
      s.temperatureC ≤ 300 ∧ 0 ≤ s.vibration := by
  obtain ⟨b, f, wr, props, vb, _, _, _, _, _, _, _, hs⟩ :=
    simulateSamples_inv draws duration material job_type tool_no samples hok
  subst hs
  intro s hsmem
  simp only [List.mem_map] at hsmem
  obtain ⟨i, _, rfl⟩ := hsmem
  have h := sampleAt_clamps b (f * ((10 + (tool_no : ℚ) * 2) / 10)) wr props vb draws i
    (linTerm 0 duration (pyInt (duration * 60 / 5)) i)
  unfold runSample
  exact ⟨h.1, by linarith [h.2.1], h.2.2.1, h.2.2.2.1, h.2.2.2.2⟩

/-- Witness for C6 at the first sample of the concrete noise-free
ten-second run. -/
theorem c6_clamp_bounds_witness :
    100 ≤ firstSample.rpm ∧ 1/2 ≤ firstSample.powerKw ∧ 25 ≤ firstSample.temperatureC ∧
    firstSample.temperatureC ≤ 300 ∧ 0 ≤ firstSample.vibration :=
  c6_clamp_bounds noNoiseDraws (1/6) "Mild Steel" "turning" 1 twoPointSamples
    twoPointSamples_run firstSample (List.mem_cons_self _ _)

/-- C9: `generate_batch_sensor_data` always returns a string: either the
success message or a string beginning with `"Error occurred: "`; no
exception ever propagates to the caller. -/
theorem c9_total_string (dbFailure : Option PyError) (draws : RandomDraws)
    (lathe_id job_id : String) (duration : ℚ) (material job_type : String)
    (tool_no : ℤ) :
    (∃ k, generate_batch_sensor_data dbFailure draws lathe_id job_id duration material
        job_type tool_no = successMessage k job_id lathe_id) ∨
    (∃ rest, generate_batch_sensor_data dbFailure draws lathe_id job_id duration material
        job_type tool_no = "Error occurred: " ++ rest) := by
  unfold generate_batch_sensor_data
  cases dbFailure with
  | some e => exact Or.inr ⟨e.toStr, rfl⟩
  | none =>
    cases h : simulateRun draws duration material job_type tool_no with
    | ok r => exact Or.inl ⟨r.1.length, rfl⟩
    | error e => exact Or.inr ⟨e.toStr, rfl⟩

/-- C5: for valid inputs the produced sequence has exactly
`floor(duration*60/5)` samples. -/
theorem c5_sample_count (draws : RandomDraws) (duration : ℚ) (material job_type : String)
    (tool_no : ℤ) (hdur : 0 < duration)
    (hm : material = "Mild Steel" ∨ material = "Aluminum" ∨ material = "Wood")
    (hj : job_type ∈ JOB_TYPES) :
    ∃ samples, simulateSamples draws duration material job_type tool_no = .ok samples ∧
      samples.length = (⌊duration * 60 / 5⌋).toNat := by
  obtain ⟨b, hb⟩ := material_baseRpm draws material hm
  obtain ⟨f, hf⟩ := job_lookup job_type hj
  obtain ⟨wr, props, vb, hwr, _, hp, hvb⟩ := material_lookups material hm
  have hq : (0 : ℚ) ≤ duration * 60 / 5 := by positivity
  have hpy : pyInt (duration * 60 / 5) = ⌊duration * 60 / 5⌋ := by
    unfold pyInt
    exact if_pos hq
  have hn : ¬ pyInt (duration * 60 / 5) < 0 := by
    rw [hpy]
    exact not_lt.mpr (Int.floor_nonneg.mpr hq)
  refine ⟨_, simulateSamples_ok draws duration material job_type tool_no b f wr props vb
    hb hf hwr hp hvb hn, ?_⟩
  simp [List.length_map, List.length_range, hpy]

/-- Witness for C5 at the concrete noise-free ten-second run. -/
theorem c5_sample_count_witness :
    ∃ samples, simulateSamples noNoiseDraws (1/6) "Mild Steel" "turning" 1 = .ok samples ∧
      samples.length = (⌊(1/6 : ℚ) * 60 / 5⌋).toNat :=
  c5_sample_count noNoiseDraws (1/6) "Mild Steel" "turning" 1 (by norm_num) (Or.inl rfl)
    (by decide)

/-- C8: the simulation is a function of its inputs plus the supplied
random source alone — two runs of the spec's reference configuration
(Mild Steel, turning, tool 1, 10 minutes) with sources supplying the same
values produce identical sequences, of length exactly 120. -/
theorem c8_deterministic (d1 d2 : RandomDraws)
    (hbase : d1.rpmMild = d2.rpmMild)
    (hw : ∀ i, d1.wearNoise i = d2.wearNoise i)
    (hr : ∀ i, d1.rpmNoise i = d2.rpmNoise i)
    (hpw : ∀ i, d1.powerNoise i = d2.powerNoise i)
    (ht : ∀ i, d1.tempNoise i = d2.tempNoise i)
    (hv : ∀ i, d1.vibNoise i = d2.vibNoise i) :
    simulateSamples d1 10 "Mild Steel" "turning" 1
      = simulateSamples d2 10 "Mild Steel" "turning" 1 ∧
    ∃ samples, simulateSamples d1 10 "Mild Steel" "turning" 1 = .ok samples ∧
      samples.length = 120 := by
  have hpy : pyInt ((10 : ℚ) * 60 / 5) = 120 := by
    rw [show ((10 : ℚ) * 60 / 5) = 120 by norm_num]
    unfold pyInt
    norm_num
  have hn : ¬ pyInt ((10 : ℚ) * 60 / 5) < 0 := by
    rw [hpy]
    norm_num
  have e1 := simulateSamples_ok d1 10 "Mild Steel" "turning" 1 d1.rpmMild (35/10) (15/100)
    ⟨120, 50, 460⟩ (25/10) rfl rfl rfl rfl rfl hn
  have e2 := simulateSamples_ok d2 10 "Mild Steel" "turning" 1 d2.rpmMild (35/10) (15/100)
    ⟨120, 50, 460⟩ (25/10) rfl rfl rfl rfl rfl hn
  constructor
  · rw [e1, e2]
    congr 1
    apply List.map_congr_left
    intro i _
    unfold runSample sampleAt wearAt rpmAt
    rw [hbase, hw i, hr i, hpw i, ht i, hv i]
  · exact ⟨_, e1, by simp [List.length_map, List.length_range, hpy]⟩

/-- Witness for C8: the same noise-free source on both sides. -/
theorem c8_deterministic_witness :
    simulateSamples noNoiseDraws 10 "Mild Steel" "turning" 1
      = simulateSamples noNoiseDraws 10 "Mild Steel" "turning" 1 ∧
    ∃ samples, simulateSamples noNoiseDraws 10 "Mild Steel" "turning" 1 = .ok samples ∧
      samples.length = 120 :=
  c8_deterministic noNoiseDraws noNoiseDraws rfl (fun _ => rfl) (fun _ => rfl)
    (fun _ => rfl) (fun _ => rfl) (fun _ => rfl)

/-- C1 counterexample: in the valid ten-second run the second sample sits
at `1/6` minute, not at `1 * (5/60) = 1/12` minute, so the sampling step
is not `interval/60`; `np.linspace(0, duration, n)` stretches the grid to
end exactly at `duration`. -/
theorem c1_counterexample :
    simulateSamples noNoiseDraws (1/6) "Mild Steel" "turning" 1 = .ok twoPointSamples ∧
    twoPointSamples.map SensorSample.elapsedMinutes = [0, 1/6] ∧
    (1 : ℚ) * (5 / 60) ≠ 1/6 :=
  ⟨twoPointSamples_run, rfl, by norm_num⟩

/-- C1 (amended): `elapsedMinutes` starts at 0 and is strictly increasing,
but the fixed step is `duration/(n-1)` — sample `i` sits at
`duration * i / (n-1)` with `n = int(duration*60/5)` — not `interval/60`. -/
theorem c1_elapsed_schedule (draws : RandomDraws) (duration : ℚ)
    (material job_type : String) (tool_no : ℤ) (samples : List SensorSample)
    (hdur : 0 < duration)
    (hok : simulateSamples draws duration material job_type tool_no = .ok samples) :
    (∀ h0 : 0 < samples.length, (samples.get ⟨0, h0⟩).elapsedMinutes = 0) ∧
    (∀ i (hi : i < samples.length), (samples.get ⟨i, hi⟩).elapsedMinutes
      = duration * (i : ℚ) / ((pyInt (duration * 60 / 5) : ℚ) - 1)) ∧
    (∀ i k (hi : i < samples.length) (hk : k < samples.length), i < k →
      (samples.get ⟨i, hi⟩).elapsedMinutes < (samples.get ⟨k, hk⟩).elapsedMinutes) := by
  obtain ⟨b, f, wr, props, vb, _, _, _, _, _, _, hn, hs⟩ :=
    simulateSamples_inv draws duration material job_type tool_no samples hok
  subst hs
  have hform : ∀ i (hi : i < ((List.range (pyInt (duration * 60 / 5)).toNat).map
      (runSample b (f * ((10 + (tool_no : ℚ) * 2) / 10)) wr props vb draws duration
        (pyInt (duration * 60 / 5)))).length),
      (((List.range (pyInt (duration * 60 / 5)).toNat).map
        (runSample b (f * ((10 + (tool_no : ℚ) * 2) / 10)) wr props vb draws duration
          (pyInt (duration * 60 / 5)))).get ⟨i, hi⟩).elapsedMinutes
        = duration * (i : ℚ) / ((pyInt (duration * 60 / 5) : ℚ) - 1) := by
    intro i hi
    rw [canonical_get]
    show linTerm 0 duration (pyInt (duration * 60 / 5)) i
      = duration * (i : ℚ) / ((pyInt (duration * 60 / 5) : ℚ) - 1)
    unfold linTerm
    ring
  refine ⟨?_, hform, ?_⟩
  · intro h0
    rw [hform 0 h0]
    simp
  · intro i k hi hk hik
    rw [hform i hi, hform k hk]
    have hkn : k < (pyInt (duration * 60 / 5)).toNat := by
      simpa using hk
    have h2 : 2 ≤ (pyInt (duration * 60 / 5)).toNat := by omega
    have hnum : (2 : ℤ) ≤ pyInt (duration * 60 / 5) := by omega
    have hc : (2 : ℚ) ≤ ((pyInt (duration * 60 / 5) : ℤ) : ℚ) := by exact_mod_cast hnum
    have hpos : (0 : ℚ) < ((pyInt (duration * 60 / 5) : ℤ) : ℚ) - 1 := by linarith
    have hmul : duration * (i : ℚ) < duration * (k : ℚ) := by
      have : (i : ℚ) < (k : ℚ) := by exact_mod_cast hik
      exact mul_lt_mul_of_pos_left this hdur
    rw [div_eq_mul_inv, div_eq_mul_inv]
    exact mul_lt_mul_of_pos_right hmul (inv_pos.mpr hpos)

/-- Witness for C1 (amended) at the concrete noise-free ten-second run. -/
theorem c1_elapsed_schedule_witness :
    (∀ h0 : 0 < twoPointSamples.length,
      (twoPointSamples.get ⟨0, h0⟩).elapsedMinutes = 0) ∧
    (∀ i (hi : i < twoPointSamples.length), (twoPointSamples.get ⟨i, hi⟩).elapsedMinutes
      = (1/6 : ℚ) * (i : ℚ) / ((pyInt ((1/6 : ℚ) * 60 / 5) : ℚ) - 1)) ∧
    (∀ i k (hi : i < twoPointSamples.length) (hk : k < twoPointSamples.length), i < k →
      (twoPointSamples.get ⟨i, hi⟩).elapsedMinutes
        < (twoPointSamples.get ⟨k, hk⟩).elapsedMinutes) :=
  c1_elapsed_schedule noNoiseDraws (1/6) "Mild Steel" "turning" 1 twoPointSamples
    (by norm_num) twoPointSamples_run

/-- C2 counterexample: a per-point wear-noise draw of `-1` (possible for a
`Normal(1, 0.05)` sample) makes the second tool-wear value `-1/40 < 0`;
the code clamps wear from above at 100 but never from below at 0. -/
theorem c2_counterexample :
    simulateSamples negWearDraws (1/6) "Mild Steel" "turning" 1 = .ok negTwoPointSamples ∧
    negTwoPointSamples.map SensorSample.toolWearPct = [0, -(1/40)] ∧
    ¬ (0 : ℚ) ≤ -(1/40 : ℚ) :=
  ⟨negTwoPointSamples_run, rfl, by norm_num⟩

/-- C2 (amended): `toolWearPct ≤ 100` always holds; the lower bound
`0 ≤ toolWearPct` holds whenever every per-point wear-noise draw is
nonnegative (the code has no lower clamp). -/
theorem c2_wear_bounds (draws : RandomDraws) (duration : ℚ)
    (material job_type : String) (tool_no : ℤ) (samples : List SensorSample)
    (hdur : 0 ≤ duration)
    (hnoise : ∀ i, 0 ≤ draws.wearNoise i)
    (hok : simulateSamples draws duration material job_type tool_no = .ok samples) :
    ∀ s ∈ samples, 0 ≤ s.toolWearPct ∧ s.toolWearPct ≤ 100 := by
  obtain ⟨b, f, wr, props, vb, _, _, _, hwrpos, _, _, hn, hs⟩ :=
    simulateSamples_inv draws duration material job_type tool_no samples hok
  subst hs
  intro s hsmem
  simp only [List.mem_map, List.mem_range] at hsmem
  obtain ⟨i, hi, rfl⟩ := hsmem
  constructor
  · show (0 : ℚ) ≤ min 100 (wr * linTerm 0 duration (pyInt (duration * 60 / 5)) i
      * draws.wearNoise i)
    refine le_min (by norm_num) ?_
    exact mul_nonneg (mul_nonneg hwrpos (linTerm_nonneg duration _ hdur i hi)) (hnoise i)
  · exact min_le_left _ _

/-- Witness for C2 (amended) at the first sample of the concrete
noise-free ten-second run. -/
theorem c2_wear_bounds_witness :
    0 ≤ firstSample.toolWearPct ∧ firstSample.toolWearPct ≤ 100 :=
  c2_wear_bounds noNoiseDraws (1/6) "Mild Steel" "turning" 1 twoPointSamples
    (by norm_num) (fun i => by rw [show noNoiseDraws.wearNoise i = 1 from rfl]; norm_num)
    twoPointSamples_run firstSample (List.mem_cons_self _ _)

/-- C10: the first sample's tool wear is exactly 0 whatever the noise
draws are, and when the run has at least two samples the last sample's
elapsed time equals the duration exactly. -/
theorem c10_first_last (draws : RandomDraws) (duration : ℚ)
    (material job_type : String) (tool_no : ℤ) (samples : List SensorSample)
    (hok : simulateSamples draws duration material job_type tool_no = .ok samples) :
    (∀ h0 : 0 < samples.length, (samples.get ⟨0, h0⟩).toolWearPct = 0) ∧
    (2 ≤ samples.length → ∀ hl : samples.length - 1 < samples.length,
      (samples.get ⟨samples.length - 1, hl⟩).elapsedMinutes = duration) := by
  obtain ⟨b, f, wr, props, vb, _, _, _, _, _, _, hn, hs⟩ :=
    simulateSamples_inv draws duration material job_type tool_no samples hok
  subst hs
  constructor
  · intro h0
    rw [canonical_get]
    show min 100 (wr * linTerm 0 duration (pyInt (duration * 60 / 5)) 0
      * draws.wearNoise 0) = 0
    rw [show linTerm 0 duration (pyInt (duration * 60 / 5)) 0 = 0 by
      unfold linTerm; norm_num]
    rw [mul_zero, zero_mul]
    exact min_eq_right (by norm_num)
  · intro h2 hl
    rw [canonical_get]
    have hlen : ((List.range (pyInt (duration * 60 / 5)).toNat).map
        (runSample b (f * ((10 + (tool_no : ℚ) * 2) / 10)) wr props vb draws duration
          (pyInt (duration * 60 / 5)))).length = (pyInt (duration * 60 / 5)).toNat := by
      simp
    rw [hlen] at h2 ⊢
    show linTerm 0 duration (pyInt (duration * 60 / 5))
      ((pyInt (duration * 60 / 5)).toNat - 1) = duration
    have hge1 : 1 ≤ (pyInt (duration * 60 / 5)).toNat := by omega
    have hnum : (2 : ℤ) ≤ pyInt (duration * 60 / 5) := by omega
    have hnn : (0 : ℤ) ≤ pyInt (duration * 60 / 5) := by omega
    have htn : (((pyInt (duration * 60 / 5)).toNat : ℕ) : ℚ)
        = ((pyInt (duration * 60 / 5) : ℤ) : ℚ) := by
      exact_mod_cast Int.toNat_of_nonneg hnn
    have hcast : (((pyInt (duration * 60 / 5)).toNat - 1 : ℕ) : ℚ)
        = ((pyInt (duration * 60 / 5) : ℤ) : ℚ) - 1 := by
      rw [Nat.cast_sub hge1, htn, Nat.cast_one]
    unfold linTerm
    rw [hcast, sub_zero, zero_add, mul_div_assoc, div_self, mul_one]
    have hc : (2 : ℚ) ≤ ((pyInt (duration * 60 / 5) : ℤ) : ℚ) := by exact_mod_cast hnum
    intro hzero
    rw [sub_eq_zero] at hzero
    rw [hzero] at hc
    norm_num at hc

theorem pyInt_nonpos (q : ℚ) (h : q ≤ 0) : pyInt q ≤ 0 := by
  unfold pyInt
  split
  · calc ⌊q⌋ ≤ ⌊(0 : ℚ)⌋ := Int.floor_le_floor h
      _ = 0 := Int.floor_zero
  · exact Int.ceil_le.mpr (by exact_mod_cast h)

theorem simulateSamples_valueError (draws : RandomDraws) (duration : ℚ)
    (material job_type : String) (tool_no : ℤ) (b f : ℚ)
    (hb : dictGet (baseRpmDict draws) material = .ok b)
    (hf : dictGet BASE_POWER_FACTORS job_type = .ok f)
    (hn : pyInt (duration * 60 / 5) < 0) :
    simulateSamples draws duration material job_type tool_no
      = .error (.valueError "Number of samples must be non-negative") := by
  unfold simulateSamples linspace
  simp only []
  rw [calculate_machine_parameters_ok draws material job_type (10 + (tool_no : ℚ) * 2) b f
    hb hf]
  simp [Bind.bind, Except.bind, hn]

/-- C3 counterexample: at the claim's own input the failure raised is a
plain `KeyError("Nonexistent")` — the error vocabulary of the program
(`PyError`) has no `UnknownMaterial` — and the caller-facing wrapper turns
it into the string `"Error occurred: 'Nonexistent'"` instead of letting a
typed error escape. -/
theorem c3_counterexample :
    simulateRun noNoiseDraws 10 "Nonexistent" "turning" 1
      = .error (.keyError "Nonexistent") ∧
    generate_batch_sensor_data none noNoiseDraws "1" "JOB0101" 10 "Nonexistent" "turning" 1
      = "Error occurred: 'Nonexistent'" :=
  ⟨rfl, rfl⟩

/-- C3 (amended): any material outside the three known keys makes the run
fail with `KeyError(material)` — raised while computing the base
parameters, before any sampling — so no sample sequence is ever produced;
the wrapper reports it as the string `"Error occurred: '<material>'"`. -/
theorem c3_unknown_material (draws : RandomDraws) (duration : ℚ)
    (material job_type : String) (tool_no : ℤ) (lathe_id job_id : String)
    (h1 : material ≠ "Mild Steel") (h2 : material ≠ "Aluminum")
    (h3 : material ≠ "Wood") :
    simulateSamples draws duration material job_type tool_no
      = .error (.keyError material) ∧
    simulateRun draws duration material job_type tool_no
      = .error (.keyError material) ∧
    generate_batch_sensor_data none draws lathe_id job_id duration material job_type
      tool_no = "Error occurred: " ++ ("'" ++ material ++ "'") := by
  have b1 : (material == "Mild Steel") = false := beq_eq_false_iff_ne.mpr h1
  have b2 : (material == "Aluminum") = false := beq_eq_false_iff_ne.mpr h2
  have b3 : (material == "Wood") = false := beq_eq_false_iff_ne.mpr h3
  have hkey : dictGet (baseRpmDict draws) material = .error (.keyError material) := by
    simp [dictGet, baseRpmDict, List.lookup, b1, b2, b3]
  have hcalc : calculate_machine_parameters draws material job_type
      (10 + (tool_no : ℚ) * 2) = .error (.keyError material) := by
    unfold calculate_machine_parameters
    rw [hkey]
    rfl
  have hsim : simulateSamples draws duration material job_type tool_no
      = .error (.keyError material) := by
    unfold simulateSamples
    simp only []
    rw [hcalc]
    rfl
  have hrun : simulateRun draws duration material job_type tool_no
      = .error (.keyError material) := by
    unfold simulateRun
    rw [hsim]
    rfl
  refine ⟨hsim, hrun, ?_⟩
  unfold generate_batch_sensor_data
  simp only []
  rw [hrun]
  rfl

/-- Witness for C3 (amended) at the claim's concrete input. -/
theorem c3_unknown_material_witness :
    simulateSamples noNoiseDraws 10 "Nonexistent" "turning" 1
      = .error (.keyError "Nonexistent") ∧
    simulateRun noNoiseDraws 10 "Nonexistent" "turning" 1
      = .error (.keyError "Nonexistent") ∧
    generate_batch_sensor_data none noNoiseDraws "1" "JOB0101" 10 "Nonexistent" "turning" 1
      = "Error occurred: " ++ ("'" ++ "Nonexistent" ++ "'") :=
  c3_unknown_material noNoiseDraws 10 "Nonexistent" "turning" 1 "1" "JOB0101"
    (by decide) (by decide) (by decide)

/-- C4 counterexample: tool index 0 is non-positive, yet the run succeeds
and the wrapper returns the success message — no `InvalidToolIndex`
validation exists anywhere in the code. -/
theorem c4_counterexample :
    (simulateRun noNoiseDraws (1/6) "Mild Steel" "turning" 0).isOk = true ∧
    generate_batch_sensor_data none noNoiseDraws "1" "JOB0101" (1/6) "Mild Steel"
      "turning" 0 = successMessage 2 "JOB0101" "1" := by
  have hsim := simulateSamples_ok noNoiseDraws (1/6) "Mild Steel" "turning" 0 1000 (35/10)
    (15/100) ⟨120, 50, 460⟩ (25/10) rfl rfl rfl rfl rfl (by rw [pyInt_two]; norm_num)
  rw [pyInt_two, show ((2 : ℤ)).toNat = 2 from rfl,
    show List.range 2 = [0, 1] from by decide] at hsim
  simp only [List.map_cons, List.map_nil] at hsim
  have hrun : simulateRun noNoiseDraws (1/6) "Mild Steel" "turning" 0
      = .ok ([runSample 1000 (35/10 * ((10 + (0 : ℚ) * 2) / 10)) (15/100) ⟨120, 50, 460⟩
          (25/10) noNoiseDraws (1/6) 2 0,
        runSample 1000 (35/10 * ((10 + (0 : ℚ) * 2) / 10)) (15/100) ⟨120, 50, 460⟩
          (25/10) noNoiseDraws (1/6) 2 1],
        (runSample 1000 (35/10 * ((10 + (0 : ℚ) * 2) / 10)) (15/100) ⟨120, 50, 460⟩
          (25/10) noNoiseDraws (1/6) 2 1).toolWearPct) := by
    unfold simulateRun
    rw [hsim]
    rfl
  constructor
  · rw [hrun]
    rfl
  · unfold generate_batch_sensor_data
    simp only []
    rw [hrun]
    rfl

/-- C4 (amended): the code validates neither duration nor tool index.  A
non-positive duration with otherwise valid inputs makes the body raise an
untyped runtime error — `ValueError` from `np.linspace` when
`int(duration*12) < 0`, otherwise `IndexError` at the final
`tool_wear[-1]` access — which the wrapper converts into an
`"Error occurred: "` string; a non-positive tool index is accepted. -/
theorem c4_nonpositive_duration (draws : RandomDraws) (duration : ℚ)
    (material job_type : String) (tool_no : ℤ) (lathe_id job_id : String)
    (hm : material = "Mild Steel" ∨ material = "Aluminum" ∨ material = "Wood")
    (hj : job_type ∈ JOB_TYPES)
    (hdur : duration ≤ 0) :
    ∃ e, simulateRun draws duration material job_type tool_no = .error e ∧
      generate_batch_sensor_data none draws lathe_id job_id duration material job_type
        tool_no = "Error occurred: " ++ e.toStr := by
  obtain ⟨b, hb⟩ := material_baseRpm draws material hm
  obtain ⟨f, hf⟩ := job_lookup job_type hj
  obtain ⟨wr, props, vb, hwr, _, hp, hvb⟩ := material_lookups material hm
  have hq : duration * 60 / 5 ≤ 0 := by linarith
  have hn0 : pyInt (duration * 60 / 5) ≤ 0 := pyInt_nonpos _ hq
  rcases lt_or_eq_of_le hn0 with hlt | heq
  · have hsim := simulateSamples_valueError draws duration material job_type tool_no b f
      hb hf hlt
    have hrun : simulateRun draws duration material job_type tool_no
        = .error (.valueError "Number of samples must be non-negative") := by
      unfold simulateRun
      rw [hsim]
      rfl
    refine ⟨_, hrun, ?_⟩
    unfold generate_batch_sensor_data
    simp only []
    rw [hrun]
  · have hsim := simulateSamples_ok draws duration material job_type tool_no b f wr props
      vb hb hf hwr hp hvb (by rw [heq]; norm_num)
    rw [heq] at hsim
    simp only [show ((0 : ℤ)).toNat = 0 from rfl, List.range_zero, List.map_nil] at hsim
    have hrun : simulateRun draws duration material job_type tool_no
        = .error (.indexError "index -1 is out of bounds for axis 0 with size 0") := by
      unfold simulateRun
      rw [hsim]
      rfl
    refine ⟨_, hrun, ?_⟩
    unfold generate_batch_sensor_data
    simp only []
    rw [hrun]

/-- Witness for C4 (amended) at duration zero. -/
theorem c4_nonpositive_duration_witness :
    ∃ e, simulateRun noNoiseDraws 0 "Mild Steel" "turning" 1 = .error e ∧
      generate_batch_sensor_data none noNoiseDraws "1" "JOB0101" 0 "Mild Steel" "turning" 1
        = "Error occurred: " ++ e.toStr :=
  c4_nonpositive_duration noNoiseDraws 0 "Mild Steel" "turning" 1 "1" "JOB0101"
    (Or.inl rfl) (by decide) le_rfl

/-- C7: with the noise amplitudes forced to zero (`Normal(1, 0.05) → 1`,
`Normal(0, 0.03) → 0`), the wear value is non-decreasing in elapsed time
and the RPM value is non-increasing in the wear level, holding the base
RPM fixed. -/
theorem c7_monotone (material : String) (rate t1 t2 base w1 w2 : ℚ)
    (hrate : dictGet TOOL_WEAR_RATES material = .ok rate)
    (ht : t1 ≤ t2) (hbase : 0 ≤ base) (hw : w1 ≤ w2) :
    wearAt rate t1 1 ≤ wearAt rate t2 1 ∧ rpmAt base w2 0 ≤ rpmAt base w1 0 := by
  have hr : 0 ≤ rate := wear_rate_nonneg material rate hrate
  constructor
  · unfold wearAt
    apply min_le_min le_rfl
    have h := mul_le_mul_of_nonneg_left ht hr
    simpa using h
  · unfold rpmAt
    apply max_le_max le_rfl
    have h5 : w1 / 500 ≤ w2 / 500 := by linarith
    have h := mul_le_mul_of_nonneg_left (by linarith : 1 - w2 / 500 ≤ 1 - w1 / 500) hbase
    simpa using h

/-- Witness for C7 with the Mild Steel wear rate and base RPM 1000. -/
theorem c7_monotone_witness :
    wearAt (15/100) 0 1 ≤ wearAt (15/100) (1/6) 1 ∧
    rpmAt 1000 (1/40) 0 ≤ rpmAt 1000 0 0 :=
  c7_monotone "Mild Steel" (15/100) 0 (1/6) 1000 0 (1/40) rfl (by norm_num) (by norm_num)
    (by norm_num)

/-- Witness for C10 at the concrete noise-free ten-second run. -/
theorem c10_first_last_witness :
    (∀ h0 : 0 < twoPointSamples.length,
      (twoPointSamples.get ⟨0, h0⟩).toolWearPct = 0) ∧
    (2 ≤ twoPointSamples.length → ∀ hl : twoPointSamples.length - 1 < twoPointSamples.length,
      (twoPointSamples.get ⟨twoPointSamples.length - 1, hl⟩).elapsedMinutes = (1/6 : ℚ)) :=
  c10_first_last noNoiseDraws (1/6) "Mild Steel" "turning" 1 twoPointSamples
    twoPointSamples_run

end LatheSim
